import Mathlib

/-!
Shallow embedding of `src/brewblox_menu/commands.py`: the BrewBlox command-menu
execution engine.  Shell execution is modelled by an environment assigning an
exit status to each shell command string; interactive standard input is
modelled as a finite list of input lines threaded through every function that
reads a line.
-/

namespace Brewblox

/-- Python `str.lower()`, modelled characterwise (the inputs involved are
ASCII). -/
def strLower (s : String) : String := String.mk (s.data.map Char.toLower)

/-- `distutils.util.strtobool`, as called by `confirm`.  It lowercases its
argument, maps the accepted truthy/falsy vocabulary to a boolean, and raises
`ValueError` (here: `none`) otherwise. -/
def strtobool (val : String) : Option Bool :=
  let v := strLower val
  if v = "y" ∨ v = "yes" ∨ v = "t" ∨ v = "true" ∨ v = "on" ∨ v = "1" then some true
  else if v = "n" ∨ v = "no" ∨ v = "f" ∨ v = "false" ∨ v = "off" ∨ v = "0" then some false
  else none

/-- Outcome of `confirm` on a finite list of input lines: the returned boolean
(`none` if the modelled input was exhausted before a valid token was read),
the remaining input lines, and the number of invalid-input guidance messages
printed before returning. -/
structure ConfirmOut where
  result : Option Bool
  rest : List String
  retries : Nat
deriving Repr, DecidableEq

/-- The retry loop of `confirm`: `return strtobool(input().lower() or default)`
with the `ValueError` handler printing a guidance message and looping. -/
def confirmAux (default : String) : List String → ConfirmOut
  | [] => ⟨none, [], 0⟩
  | line :: rest =>
    let lowered := strLower line
    let val := if lowered = "" then default else lowered
    match strtobool val with
    | some b => ⟨some b, rest, 0⟩
    | none =>
      let o := confirmAux default rest
      ⟨o.result, o.rest, o.retries + 1⟩

/-- `confirm(question, default='y')`.  The question is only printed, so it does
not influence the outcome. -/
def confirm (question : String) (default : String) (inputs : List String) : ConfirmOut :=
  confirmAux default inputs

/-- The `CalledProcessError` raised by `subprocess.check_call` on a non-zero
exit: it carries the failing command text and its exit status. -/
structure ShellError where
  cmd : String
  returncode : Nat
deriving Repr, DecidableEq

/-- `Command.run`: executes one shell command; `check_call` returns 0 on
success and raises `CalledProcessError` on a non-zero exit status. -/
def runCmd (shell : String → Nat) (cmd : String) : Except ShellError Nat :=
  if shell cmd = 0 then Except.ok 0 else Except.error ⟨cmd, shell cmd⟩

/-- `Command.run_all` (after its announcement step): `[self.run(cmd) for cmd in
shell_cmds]`.  Returns the list of commands actually executed, in order, and
either the collected results or the first failure, which aborts the rest. -/
def run_all (shell : String → Nat) : List String → List String × Except ShellError (List Nat)
  | [] => ([], Except.ok [])
  | cmd :: rest =>
    match runCmd shell cmd with
    | Except.error e => ([cmd], Except.error e)
    | Except.ok n =>
      match run_all shell rest with
      | (ex, Except.ok ns) => (cmd :: ex, Except.ok (n :: ns))
      | (ex, Except.error e) => (cmd :: ex, Except.error e)

/-- The host environment a session runs against: the exit status every shell
command would produce (`subprocess`), `shutil.which` presence, platform
detection, and the settings read via `getenv`. -/
structure Env where
  shell : String → Nat
  which : String → Bool
  isPi : Bool
  release : String
  user : String
  baseDir : String

/-- `command_exists(cmd)`: `bool(shutil.which(cmd))`. -/
def command_exists (env : Env) (cmd : String) : Bool := env.which cmd

/-- `check_ok(cmd)`: silent probe run, true iff the command exits 0. -/
def check_ok (env : Env) (cmd : String) : Bool := env.shell cmd == 0

/-- `is_root()`: `check_ok('ls /root')`. -/
def is_root (env : Env) : Bool := check_ok env "ls /root"

/-- `is_docker_user()`: silent probe for membership in the docker group. -/
def is_docker_user (env : Env) : Bool :=
  check_ok env "id -nG $USER | grep -qw \"docker\""

/-- `docker_tag()`: rpi prefix when on ARM, plus the release setting. -/
def docker_tag (env : Env) : String :=
  (if env.isPi then "rpi-" else "") ++ env.release

/-- The closed set of menu commands registered in `main`. -/
inductive Cmd where
  | composeUp
  | composeDown
  | composeUpdate
  | install
  | setup
  | flash
  | bootloader
  | wifi
  | status
  | log
  | exitMenu
deriving Repr, DecidableEq

/-- Each command's dispatch keyword, as passed to `Command.__init__`. -/
def Cmd.keyword : Cmd → String
  | .composeUp => "up"
  | .composeDown => "down"
  | .composeUpdate => "update"
  | .install => "install"
  | .setup => "setup"
  | .flash => "flash"
  | .bootloader => "bootloader"
  | .wifi => "wifi"
  | .status => "status"
  | .log => "log"
  | .exitMenu => "exit"

/-- Each command's displayed description. -/
def Cmd.description : Cmd → String
  | .composeUp => "Start all services if not running"
  | .composeDown => "Stop running services"
  | .composeUpdate => "Update all services"
  | .install => "Install a new BrewBlox system"
  | .setup => "Run first-time setup"
  | .flash => "Flash firmware on Spark"
  | .bootloader => "Flash bootloader on Spark"
  | .wifi => "Connect Spark to WiFi"
  | .status => "Check system status"
  | .log => "Write service logs to brewblox-log.txt"
  | .exitMenu => "Exit this menu"

/-- How a command's `action()` resolves in the model. `exited` is a raised
`SystemExit`, `failed` a propagated `CalledProcessError`, `starved` the model
artifact for `input()` hitting the end of the finite input-line list. -/
inductive ActionResult where
  | normal
  | exited
  | failed (e : ShellError)
  | starved
deriving Repr, DecidableEq

/-- Observable outcome of one `action()` call: its result, the input lines it
left unconsumed, the shell-operation list it handed to `run_all` (`[]` when
`run_all` was never reached), the operations actually executed, and the
confirmation questions it asked. -/
structure ActionOut where
  result : ActionResult
  rest : List String
  assembled : List String
  executed : List String
  asked : List String
deriving Repr, DecidableEq

/-- `run_all(shell_commands)` with announcement: `announce` prints the list
and consumes one input line (`Press ENTER to continue`), then every command is
run in order until the first failure. -/
def finishRunAll (env : Env) (cmds asked : List String) (inputs : List String) : ActionOut :=
  match inputs with
  | [] => ⟨.starved, [], cmds, [], asked⟩
  | _ :: rest =>
    let r := run_all env.shell cmds
    ⟨(match r.2 with
      | Except.ok _ => .normal
      | Except.error e => .failed e), rest, cmds, r.1, asked⟩

/-- Template of every action that only builds a fixed list and calls
`self.run_all(shell_commands)`. -/
def simpleAction (env : Env) (cmds : List String) (inputs : List String) : ActionOut :=
  finishRunAll env cmds [] inputs

/-- Template of the firmware actions: one extra
`input('Please press ENTER when your Spark is connected over USB')` precedes
the `run_all` call. -/
def promptedAction (env : Env) (cmds : List String) (inputs : List String) : ActionOut :=
  match inputs with
  | [] => ⟨.starved, [], cmds, [], []⟩
  | _ :: rest => simpleAction env cmds rest

/-- The operation list built by `SetupCommand.action`. -/
def setup_commands (env : Env) : List String :=
  let host := "https://localhost/datastore"
  let database := "brewblox-ui-store"
  let presets_dir := env.baseDir ++ "/presets"
  let modules := ["services", "dashboards", "dashboard-items"]
  ["docker-compose down",
   "docker-compose pull",
   "sudo openssl req -x509 -nodes -days 365 -newkey rsa:2048 " ++
     "-keyout traefik/brewblox.key " ++
     "-out traefik/brewblox.crt",
   "sudo chmod 644 traefik/brewblox.crt",
   "sudo chmod 600 traefik/brewblox.key",
   "docker-compose up -d datastore traefik",
   "sleep 5",
   "curl -Sk -X GET --retry 10 --retry-delay 5 " ++ host ++ " > /dev/null",
   "curl -Sk -X PUT " ++ host ++ "/_users",
   "curl -Sk -X PUT " ++ host ++ "/" ++ database]
  ++ modules.map (fun mod =>
       "cat " ++ presets_dir ++ "/" ++ mod ++ ".json " ++
       "| curl -Sk -X POST " ++
       "--header \x27Content-Type: application/json\x27 " ++
       "--header \x27Accept: application/json\x27 " ++
       "--data \"@-\" " ++ host ++ "/" ++ database ++ "/_bulk_docs")
  ++ ["docker-compose down"]

/-- The operation list built by `FirmwareFlashCommand.action`. -/
def flash_commands (env : Env) : List String :=
  let tag := docker_tag env
  ["docker-compose down",
   "docker pull brewblox/firmware-flasher:" ++ tag,
   "docker run -it --rm --privileged brewblox/firmware-flasher:" ++ tag ++ " trigger-dfu",
   "sleep 2",
   "docker run -it --rm --privileged brewblox/firmware-flasher:" ++ tag ++ " flash"]

/-- The operation list built by `BootloaderCommand.action`. -/
def bootloader_commands (env : Env) : List String :=
  let tag := docker_tag env
  ["docker-compose down",
   "docker pull brewblox/firmware-flasher:" ++ tag,
   "docker run -it --rm --privileged brewblox/firmware-flasher:" ++ tag ++ " flash-bootloader"]

/-- The operation list built by `WiFiCommand.action`. -/
def wifi_commands (env : Env) : List String :=
  let tag := docker_tag env
  ["docker-compose down",
   "docker pull brewblox/firmware-flasher:" ++ tag,
   "sleep 2",
   "docker run -it --rm --privileged brewblox/firmware-flasher:" ++ tag ++ " wifi"]

/-- The operation list built by `LogFileCommand.action`. -/
def log_commands : List String :=
  ["date > brewblox-log.txt",
   "for svc in $(docker-compose ps --services | tr \"\\n\" \" \"); do " ++
     "docker-compose logs -t --no-color --tail 200 ${svc} >> brewblox-log.txt; " ++
     "echo \x27\\n\x27 >> brewblox-log.txt; " ++
     "done;"]

/-- `str.rstrip('/')` applied to the chosen target directory. -/
def rstripSlash (s : String) : String :=
  String.mk ((s.toList.reverse.dropWhile (fun c => c = '/')).reverse)

/-- The state threaded through `InstallCommand.action` while it assembles its
operation list: remaining input lines, the list built so far, the questions
asked so far, and the `reboot_required` flag. -/
structure InstallSt where
  inputs : List String
  cmds : List String
  asked : List String
  reboot_required : Bool
deriving Repr, DecidableEq

/-- The `ActionOut` produced when `input()` runs dry mid-assembly: `run_all`
was never reached, so nothing was assembled or executed. -/
def starvedOut (s : InstallSt) : ActionOut :=
  ⟨.starved, s.inputs, [], [], s.asked⟩

/-- One `elif confirm(question): shell_commands.append(addCmd)` step of
`InstallCommand.action`; `skip` is the preceding probe (`if probe: ... skip`),
and `setReboot` tells whether a confirmed step sets `reboot_required`. -/
def installConfirmStep (question addCmd : String) (setReboot : Bool) (skip : Bool)
    (s : InstallSt) : Except ActionOut InstallSt :=
  if skip then Except.ok s
  else
    let o := confirm question "y" s.inputs
    let s2 : InstallSt := ⟨o.rest, s.cmds, s.asked ++ [question], s.reboot_required⟩
    match o.result with
    | none => Except.error (starvedOut s2)
    | some true =>
      Except.ok ⟨s2.inputs, s2.cmds ++ [addCmd], s2.asked, s2.reboot_required || setReboot⟩
    | some false => Except.ok s2

/-- `InstallCommand.ask_target_dir`: one free-text input line, defaulting to
`./brewblox` when blank, with trailing path separators stripped. -/
def ask_target_dir (s : InstallSt) : Except ActionOut (String × InstallSt) :=
  match s.inputs with
  | [] => Except.error (starvedOut ⟨[], s.cmds, s.asked, s.reboot_required⟩)
  | line :: rest =>
    let target_dir := if line = "" then "./brewblox" else line
    Except.ok (rstripSlash target_dir, ⟨rest, s.cmds, s.asked, s.reboot_required⟩)

/-- The directory-scaffolding operations appended by `InstallCommand.action`
after the target directory was chosen. -/
def install_dir_cmds (env : Env) (target_dir : String) : List String :=
  let source_dir := env.baseDir ++ "/install_files"
  let source_compose :=
    "docker-compose_" ++ (if env.isPi then "armhf" else "amd64") ++ ".yml"
  ["mkdir " ++ target_dir,
   "mkdir " ++ target_dir ++ "/couchdb",
   "mkdir " ++ target_dir ++ "/influxdb",
   "cp " ++ source_dir ++ "/" ++ source_compose ++ " " ++ target_dir ++ "/docker-compose.yml",
   "cp -r " ++ source_dir ++ "/traefik " ++ target_dir ++ "/"]

/-- The assembly phase of `InstallCommand.action`, from `reboot_required =
False` down to (but not including) the final `self.run_all(shell_commands)`. -/
def installAssemble (env : Env) (inputs : List String) : Except ActionOut InstallSt := do
  let st0 : InstallSt := ⟨inputs, ["sudo apt update", "sudo apt upgrade -y"], [], false⟩
  let s ← installConfirmStep "Do you want to install Docker?"
    "curl -sSL https://get.docker.com | sh" true (command_exists env "docker") st0
  let s ← installConfirmStep "Do you want to run Docker commands without sudo?"
    "sudo usermod -aG docker $USER" true (is_docker_user env) s
  let s ← installConfirmStep "Do you want to install docker-compose (from pip)?"
    "sudo pip install -U docker-compose" false (command_exists env "docker-compose") s
  let ts ← ask_target_dir s
  let s2 : InstallSt :=
    ⟨ts.2.inputs, ts.2.cmds ++ install_dir_cmds env ts.1, ts.2.asked, ts.2.reboot_required⟩
  installConfirmStep "A reboot will be required, do you want to do so?"
    "sudo reboot" false (!s2.reboot_required) s2

/-- `InstallCommand.action`: assemble, then `self.run_all(shell_commands)`. -/
def install_action (env : Env) (inputs : List String) : ActionOut :=
  match installAssemble env inputs with
  | Except.error o => o
  | Except.ok s => finishRunAll env s.cmds s.asked s.inputs

/-- `action()` of every registered command. -/
def Cmd.action (c : Cmd) (env : Env) (inputs : List String) : ActionOut :=
  match c with
  | .composeUp => simpleAction env ["docker-compose up -d"] inputs
  | .composeDown => simpleAction env ["docker-compose down"] inputs
  | .composeUpdate =>
    simpleAction env
      ["docker-compose down", "docker-compose pull", "docker-compose up -d"] inputs
  | .install => install_action env inputs
  | .setup => simpleAction env (setup_commands env) inputs
  | .flash => promptedAction env (flash_commands env) inputs
  | .bootloader => promptedAction env (bootloader_commands env) inputs
  | .wifi => promptedAction env (wifi_commands env) inputs
  | .status => simpleAction env ["docker-compose ps"] inputs
  | .log => simpleAction env log_commands inputs
  | .exitMenu => ⟨.exited, inputs, [], [], []⟩

/-- The command registry built in `main`, in display order. -/
def all_commands : List Cmd :=
  [.composeUp, .composeDown, .composeUpdate, .install, .setup,
   .flash, .bootloader, .wifi, .status, .log, .exitMenu]

/-- Token resolution in `main`: the first command whose keyword equals the
token or whose 1-based display index (as text) equals the token. -/
def resolve (cmds : List Cmd) (arg : String) : Option Cmd :=
  (cmds.enum.find? (fun p => arg == p.2.keyword || arg == toString (p.1 + 1))).map
    (fun p => p.2)

/-- Observable events of the menu loop. -/
inductive Event where
  | menuRendered
  | promptedForInput
  | askedQuestion (q : String)
  | ranShell (cmd : String)
  | guardMessage
deriving Repr, DecidableEq

/-- Loop state: the remaining launch-argument queue and the remaining
interactive input lines. -/
structure LoopState where
  args : List String
  inputs : List String
deriving Repr, DecidableEq

/-- Result of one iteration of the `while True` loop. -/
inductive StepOut where
  | next (s : LoopState)
  | awaitInput
  | starved
  | terminated (err : Option ShellError)
deriving Repr, DecidableEq

/-- The loop-continuation decision of one iteration, given the token and the
queue contents after the token was taken.  On no match the token is dropped
and the loop re-renders; on a match the command's `action()` runs, and
afterwards the loop breaks (`if not args: break`) exactly when the argument
queue is empty. -/
def dispatchOut (env : Env) (arg : String) (args inputs : List String) : StepOut :=
  match resolve all_commands arg with
  | none => .next ⟨args, inputs⟩
  | some c =>
    let o := c.action env inputs
    match o.result with
    | .normal => if args.isEmpty then .terminated none else .next ⟨args, o.rest⟩
    | .exited => .terminated none
    | .failed e => .terminated (some e)
    | .starved => .starved

/-- The observable events the dispatched command contributes: the questions
its `action()` asked and the announced shell operations it executed. -/
def dispatchEvents (env : Env) (arg : String) (inputs : List String) : List Event :=
  match resolve all_commands arg with
  | none => []
  | some c =>
    let o := c.action env inputs
    o.asked.map Event.askedQuestion ++ o.executed.map Event.ranShell

/-- The dispatch part of one loop iteration: continuation decision paired with
the events observed so far plus the dispatched command's own events. -/
def dispatch (env : Env) (arg : String) (args inputs : List String)
    (ev : List Event) : StepOut × List Event :=
  (dispatchOut env arg args inputs, ev ++ dispatchEvents env arg inputs)

/-- One iteration of the `while True` loop in `main`: print the menu, pop the
front queued argument if any (else prompt interactively), dispatch. -/
def menuStep (env : Env) (s : LoopState) : StepOut × List Event :=
  match s.args with
  | arg :: restArgs => dispatch env arg restArgs s.inputs [.menuRendered]
  | [] =>
    match s.inputs with
    | [] => (.awaitInput, [.menuRendered, .promptedForInput])
    | arg :: restInputs =>
      dispatch env arg [] restInputs [.menuRendered, .promptedForInput]

/-- Fueled iteration of `menuStep`, accumulating events; `none` when the fuel
runs out before the loop leaves its `next` state. -/
def runLoop (env : Env) : Nat → LoopState → List Event → Option (StepOut × List Event)
  | 0, _, _ => none
  | fuel + 1, s, acc =>
    match menuStep env s with
    | (.next s2, ev) => runLoop env fuel s2 (acc ++ ev)
    | (out, ev) => some (out, acc ++ ev)

/-- `main(args)`: the superuser guard runs before the first rendering; when it
fires, a guard message is printed and `SystemExit` is raised (a clean,
successful process exit, modelled as `terminated none`). -/
def mainRun (env : Env) (args inputs : List String) (fuel : Nat) :
    Option (StepOut × List Event) :=
  if is_root env then some (.terminated none, [.guardMessage])
  else runLoop env fuel ⟨args, inputs⟩ []

/-- A host where every shell command succeeds and every tool is present. -/
def allOkEnv : Env :=
  ⟨fun _ => 0, fun _ => true, false, "latest", "pi", "/base"⟩

/-- A shell behavior where exactly the command `"B"` fails, with status 2. -/
def failShell : String → Nat := fun s => if s = "B" then 2 else 0

/-- Number of menu renderings recorded in an event list. -/
def rendersIn (evs : List Event) : Nat :=
  evs.countP (fun e => match e with | Event.menuRendered => true | _ => false)

/-- C1: `run_all` executes the operations strictly in the listed order; when
some operation `b` exits non-zero, the operations before it have all run in
order, nothing after `b` runs, and the propagated failure carries `b`'s
command text and exit status. -/
theorem run_all_short_circuit (shell : String → Nat) (pre post : List String) (b : String)
    (hpre : ∀ c ∈ pre, shell c = 0) (hb : shell b ≠ 0) :
    run_all shell (pre ++ b :: post) = (pre ++ [b], Except.error ⟨b, shell b⟩) := by
  induction pre with
  | nil => simp [run_all, runCmd, hb]
  | cons c cs ih =>
    have hc : shell c = 0 := hpre c (by simp)
    have ih2 := ih (fun x hx => hpre x (by simp [hx]))
    simp [run_all, runCmd, hc, ih2]

/-- Witness for C1 at the operations `[A, B, C]` where exactly `B` fails. -/
theorem run_all_short_circuit_witness :
    run_all failShell ["A", "B", "C"] = (["A", "B"], Except.error ⟨"B", 2⟩) := by
  have h := run_all_short_circuit failShell ["A"] ["C"] "B"
    (by intro c hc; simp at hc; simp [hc, failShell]) (by simp [failShell])
  simpa [failShell] using h

/-- C3: for every registry position, the token equal to that command's keyword
and the token equal to the decimal string of its 1-based position resolve to
the same command.  `menuStep` applies `resolve` to the token identically in
its queued and its interactive branch, so this holds for every way the token
was obtained. -/
theorem dual_addressing :
    ∀ i : Fin all_commands.length,
      resolve all_commands (all_commands.get i).keyword = some (all_commands.get i) ∧
      resolve all_commands (toString (i.1 + 1)) = some (all_commands.get i) := by
  decide

/-- C8: the exit command's `action()` raises `SystemExit` without assembling
or executing any shell operation, and the loop treats it as normal
completion: `terminated none`, i.e. no error report and a successful process
exit, whether the token `"exit"` was queued or typed interactively. -/
theorem exit_command_clean_termination :
    (∀ (env : Env) (inputs : List String),
      Cmd.exitMenu.action env inputs = ⟨.exited, inputs, [], [], []⟩) ∧
    (∀ (env : Env) (args inputs : List String),
      menuStep env ⟨"exit" :: args, inputs⟩ = (.terminated none, [.menuRendered])) ∧
    (∀ (env : Env) (inputs : List String),
      menuStep env ⟨[], "exit" :: inputs⟩ =
        (.terminated none, [.menuRendered, .promptedForInput])) :=
  ⟨fun _ _ => rfl, fun _ _ _ => rfl, fun _ _ => rfl⟩

/-- C4: whenever the superuser probe reports true, `main` prints the guard
message and terminates cleanly before anything else: no menu rendering, no
interactive prompt, no command action, no announced shell operation — even
when launch arguments were supplied. -/
theorem root_guard (env : Env) (args inputs : List String) (fuel : Nat)
    (h : is_root env = true) :
    mainRun env args inputs fuel = some (.terminated none, [.guardMessage]) := by
  simp [mainRun, h]

/-- Witness for C4: on a host where `ls /root` succeeds, even with queued
arguments the session ends at the guard with only the guard message. -/
theorem root_guard_witness :
    is_root allOkEnv = true ∧
    mainRun allOkEnv ["up", "down"] ["y"] 5 =
      some (.terminated none, [.guardMessage]) :=
  ⟨rfl, root_guard allOkEnv ["up", "down"] ["y"] 5 rfl⟩

/-- C9: when the final queued argument matches no keyword and no index, the
session does not terminate: the token is consumed, the menu re-renders once,
and the loop blocks awaiting interactive input. -/
theorem unmatched_final_arg_no_batch_exit (env : Env) (arg : String)
    (h : resolve all_commands arg = none) :
    runLoop env 2 ⟨[arg], []⟩ [] =
      some (.awaitInput, [.menuRendered, .menuRendered, .promptedForInput]) := by
  simp [runLoop, menuStep, dispatch, dispatchOut, dispatchEvents, h]

/-- Witness for C9 with the unmatched final argument `"bogus"`. -/
theorem unmatched_final_arg_no_batch_exit_witness :
    resolve all_commands "bogus" = none ∧
    runLoop allOkEnv 2 ⟨["bogus"], []⟩ [] =
      some (.awaitInput, [.menuRendered, .menuRendered, .promptedForInput]) :=
  ⟨rfl, unmatched_final_arg_no_batch_exit allOkEnv "bogus" rfl⟩

/-- C2 counterexample: with an empty argument queue, a command token obtained
interactively (here `"status"`, with one further line feeding the
announcement prompt) does not return the loop to Rendering — after the
action returns normally the loop terminates, because `if not args: break`
fires regardless of where the token came from. -/
theorem interactive_token_terminates :
    menuStep allOkEnv ⟨[], ["status", ""]⟩ =
      (.terminated none,
        [.menuRendered, .promptedForInput, .ranShell "docker-compose ps"]) := by
  rfl

/-- C2 amended: after a matched command's `action()` returns normally, the
loop terminates exactly when the argument queue is now empty, regardless of
whether the token was queued or interactive; it returns to Rendering only
when queued tokens remain. -/
theorem normal_return_terminates_iff_queue_empty :
    (∀ (env : Env) (arg : String) (restArgs inputs : List String) (c : Cmd),
      resolve all_commands arg = some c →
      (c.action env inputs).result = .normal →
      (menuStep env ⟨arg :: restArgs, inputs⟩).1 =
        if restArgs.isEmpty then .terminated none
        else .next ⟨restArgs, (c.action env inputs).rest⟩) ∧
    (∀ (env : Env) (arg : String) (restInputs : List String) (c : Cmd),
      resolve all_commands arg = some c →
      (c.action env restInputs).result = .normal →
      (menuStep env ⟨[], arg :: restInputs⟩).1 = .terminated none) := by
  constructor
  · intro env arg restArgs inputs c hres hnorm
    simp [menuStep, dispatch, dispatchOut, hres, hnorm]
  · intro env arg restInputs c hres hnorm
    simp [menuStep, dispatch, dispatchOut, hres, hnorm]

/-- Witness for the amended C2: a queued `"status"` with another queued token
left continues the loop, while the same action with an emptied queue
terminates it. -/
theorem normal_return_terminates_iff_queue_empty_witness :
    (menuStep allOkEnv ⟨["status", "down"], [""]⟩).1 = .next ⟨["down"], []⟩ ∧
    (menuStep allOkEnv ⟨[], ["status", ""]⟩).1 = .terminated none := by
  constructor
  · have h := normal_return_terminates_iff_queue_empty.1
      allOkEnv "status" ["down"] [""] .status rfl rfl
    exact h.trans (by rfl)
  · exact normal_return_terminates_iff_queue_empty.2 allOkEnv "status" [""] .status rfl rfl

/-- The dispatched command's own events never include a menu rendering. -/
theorem rendersIn_dispatchEvents (env : Env) (arg : String) (inputs : List String) :
    rendersIn (dispatchEvents env arg inputs) = 0 := by
  unfold dispatchEvents
  cases resolve all_commands arg with
  | none => rfl
  | some c =>
    simp only [rendersIn, List.countP_append, List.countP_map]
    have h1 : ∀ l : List String,
        l.countP ((fun e => match e with | Event.menuRendered => true | _ => false) ∘
          Event.askedQuestion) = 0 := by
      intro l
      induction l with
      | nil => rfl
      | cons a l ih => simp [List.countP_cons, ih]
    have h2 : ∀ l : List String,
        l.countP ((fun e => match e with | Event.menuRendered => true | _ => false) ∘
          Event.ranShell) = 0 := by
      intro l
      induction l with
      | nil => rfl
      | cons a l ih => simp [List.countP_cons, ih]
    rw [h1, h2]

/-- C7: a token matching no keyword and no index string executes no shell
operation, asks no question, reports no error, and leaves the rest of the
queue and the interactive input untouched — the loop just proceeds to the
next iteration — and every loop iteration renders the menu listing exactly
once before obtaining its token. -/
theorem unmatched_token_frame :
    (∀ (env : Env) (arg : String) (args inputs : List String),
      resolve all_commands arg = none →
      menuStep env ⟨arg :: args, inputs⟩ = (.next ⟨args, inputs⟩, [.menuRendered])) ∧
    (∀ (env : Env) (arg : String) (inputs : List String),
      resolve all_commands arg = none →
      menuStep env ⟨[], arg :: inputs⟩ =
        (.next ⟨[], inputs⟩, [.menuRendered, .promptedForInput])) ∧
    (∀ (env : Env) (s : LoopState), rendersIn (menuStep env s).2 = 1) := by
  refine ⟨?_, ?_, ?_⟩
  · intro env arg args inputs h
    simp [menuStep, dispatch, dispatchOut, dispatchEvents, h]
  · intro env arg inputs h
    simp [menuStep, dispatch, dispatchOut, dispatchEvents, h]
  · intro env s
    rcases s with ⟨args, inputs⟩
    rcases args with _ | ⟨arg, restArgs⟩
    · rcases inputs with _ | ⟨arg, restInputs⟩
      · rfl
      · simp [menuStep, dispatch, rendersIn, List.countP_append,
          rendersIn_dispatchEvents]
        have := rendersIn_dispatchEvents env arg restInputs
        simpa [rendersIn] using this
    · simp [menuStep, dispatch, rendersIn, List.countP_append]
      have := rendersIn_dispatchEvents env arg inputs
      simpa [rendersIn] using this

/-- Witness for C7 at the unmatched token `"bogus"`, queued ahead of `"up"`. -/
theorem unmatched_token_frame_witness :
    resolve all_commands "bogus" = none ∧
    menuStep allOkEnv ⟨["bogus", "up"], ["y"]⟩ =
      (.next ⟨["up"], ["y"]⟩, [.menuRendered]) :=
  ⟨rfl, unmatched_token_frame.1 allOkEnv "bogus" ["up"] ["y"] rfl⟩

/-- C5: with default `'y'`, a blank line returns true and `"n"` returns
false, parsing is case-insensitive (`"N"`, `"YES"`), an input outside the
vocabulary (`"maybe"`) prints one guidance message and reads again without
returning, and the prompt returns a boolean exactly when some input line is a
valid token (or blank, resolved through the default) — it never returns a
failure. -/
theorem confirm_protocol (q : String) :
    (∀ rest, confirm q "y" ("" :: rest) = ⟨some true, rest, 0⟩) ∧
    (∀ rest, confirm q "y" ("n" :: rest) = ⟨some false, rest, 0⟩) ∧
    (∀ rest, confirm q "y" ("N" :: rest) = ⟨some false, rest, 0⟩) ∧
    (∀ rest, confirm q "y" ("YES" :: rest) = ⟨some true, rest, 0⟩) ∧
    (∀ rest, confirm q "y" ("maybe" :: rest) =
      ⟨(confirm q "y" rest).result, (confirm q "y" rest).rest,
        (confirm q "y" rest).retries + 1⟩) ∧
    (∀ inputs, (confirm q "y" inputs).result.isNone =
      inputs.all (fun line =>
        (strtobool (if strLower line = "" then "y" else strLower line)).isNone)) := by
  refine ⟨fun rest => rfl, fun rest => rfl, fun rest => rfl, fun rest => rfl,
    fun rest => rfl, ?_⟩
  intro inputs
  induction inputs with
  | nil => rfl
  | cons line rest ih =>
    show (confirmAux "y" (line :: rest)).result.isNone = _
    simp only [confirmAux]
    cases h : strtobool (if strLower line = "" then "y" else strLower line) with
    | some b => simp [List.all_cons, h]
    | none =>
      simp only [List.all_cons, h, Option.isNone_none, Bool.true_and]
      exact ih

/-- C10 counterexample: with the non-lowercase default `'Y'`, a blank input
line does not trigger the invalid-input re-prompt — it returns true at once
(zero retries), because `strtobool` lowercases its own argument. -/
theorem uppercase_default_blank_returns_true :
    confirm "Continue?" "Y" [""] = ⟨some true, [], 0⟩ := rfl

/-- Lowercasing the empty string yields the empty string. -/
theorem strLower_empty : strLower "" = "" := rfl

/-- C10 amended: `confirm` lowercases the typed input but passes the default
through unlowered; since `strtobool` itself lowercases its argument, a blank
line resolves to the default's boolean value exactly when the default is in
the accepted vocabulary case-insensitively (so `'Y'` works), and a default
outside that vocabulary (e.g. the empty string) makes blank input take the
invalid-input re-prompt path. -/
theorem confirm_blank_resolves_via_strtobool (q d : String) (rest : List String) :
    confirm q d ("" :: rest) =
      match strtobool d with
      | some b => ⟨some b, rest, 0⟩
      | none =>
        ⟨(confirm q d rest).result, (confirm q d rest).rest,
          (confirm q d rest).retries + 1⟩ := by
  cases h : strtobool d with
  | some b => simp [confirm, confirmAux, strLower_empty, h]
  | none => simp [confirm, confirmAux, strLower_empty, h]

/-- Two strings whose first two characters differ are different. -/
theorem ne_of_take2 (a b : String) (x y : List Char)
    (hx : a.data.take 2 = x) (hy : b.data.take 2 = y) (hxy : x ≠ y) : a ≠ b := by
  intro he
  apply hxy
  rw [← hx, ← hy, he]

/-- `finishRunAll` reports exactly the questions it was given. -/
theorem finishRunAll_asked (env : Env) (cmds asked inputs : List String) :
    (finishRunAll env cmds asked inputs).asked = asked := by
  cases inputs <;> rfl

/-- `finishRunAll` reports exactly the operation list it was handed. -/
theorem finishRunAll_assembled (env : Env) (cmds asked inputs : List String) :
    (finishRunAll env cmds asked inputs).assembled = cmds := by
  cases inputs <;> rfl

/-- A probe that reports true makes its install step a no-op that asks
nothing. -/
theorem installConfirmStep_skip (q a : String) (r : Bool) (s : InstallSt) :
    installConfirmStep q a r true s = Except.ok s := rfl

/-- A command that differs from both base operations and does not start with
`mkdir ` or `cp ` is not among the operations `InstallCommand.action`
assembles when all three probes report true. -/
theorem not_mem_install_skeleton (env : Env) (t bad : String)
    (h1 : bad ≠ "sudo apt update") (h2 : bad ≠ "sudo apt upgrade -y")
    (hmk : bad.data.take 2 ≠ ['m', 'k']) (hcp : bad.data.take 2 ≠ ['c', 'p']) :
    bad ∉ ["sudo apt update", "sudo apt upgrade -y"] ++ install_dir_cmds env t := by
  intro hmem
  simp only [install_dir_cmds, List.mem_append, List.mem_cons,
    List.not_mem_nil, or_false] at hmem
  rcases hmem with (h | h) | (h | h | h | h | h)
  · exact h1 h
  · exact h2 h
  · exact hmk (by rw [h]; exact rfl)
  · exact hmk (by rw [h]; exact rfl)
  · exact hmk (by rw [h]; exact rfl)
  · exact hcp (by rw [h]; exact rfl)
  · exact hcp (by rw [h]; exact rfl)

/-- C6: when `docker` is installed, the user is already in the docker group,
and `docker-compose` is installed, `InstallCommand.action` asks no
confirmation question at all and its assembled operation list contains
neither the docker install, nor the group-add, nor the pip install of
docker-compose. -/
theorem install_idempotent (env : Env) (inputs : List String)
    (hdocker : env.which "docker" = true)
    (huser : is_docker_user env = true)
    (hcompose : env.which "docker-compose" = true) :
    (install_action env inputs).asked = [] ∧
    "curl -sSL https://get.docker.com | sh" ∉ (install_action env inputs).assembled ∧
    "sudo usermod -aG docker $USER" ∉ (install_action env inputs).assembled ∧
    "sudo pip install -U docker-compose" ∉ (install_action env inputs).assembled := by
  cases inputs with
  | nil =>
    have h1 : install_action env [] = ⟨.starved, [], [], [], []⟩ := by
      simp [install_action, installAssemble, installConfirmStep_skip, command_exists,
        hdocker, huser, hcompose, ask_target_dir, starvedOut, bind, Except.bind]
    simp [h1]
  | cons line rest =>
    have h1 : install_action env (line :: rest) =
        finishRunAll env
          (["sudo apt update", "sudo apt upgrade -y"] ++
            install_dir_cmds env (rstripSlash (if line = "" then "./brewblox" else line)))
          [] rest := by
      simp [install_action, installAssemble, installConfirmStep_skip, command_exists,
        hdocker, huser, hcompose, ask_target_dir, bind, Except.bind]
    rw [h1, finishRunAll_asked, finishRunAll_assembled]
    refine ⟨rfl, ?_, ?_, ?_⟩
    · exact not_mem_install_skeleton env _ _ (by decide) (by decide) (by decide) (by decide)
    · exact not_mem_install_skeleton env _ _ (by decide) (by decide) (by decide) (by decide)
    · exact not_mem_install_skeleton env _ _ (by decide) (by decide) (by decide) (by decide)

/-- Witness for C6: on a host with every tool present and the group
membership in place, with inputs for the target-directory prompt and the
announcement, nothing docker-related is asked or assembled. -/
theorem install_idempotent_witness :
    allOkEnv.which "docker" = true ∧ is_docker_user allOkEnv = true ∧
    allOkEnv.which "docker-compose" = true ∧
    ((install_action allOkEnv ["", ""]).asked = [] ∧
     "curl -sSL https://get.docker.com | sh" ∉ (install_action allOkEnv ["", ""]).assembled ∧
     "sudo usermod -aG docker $USER" ∉ (install_action allOkEnv ["", ""]).assembled ∧
     "sudo pip install -U docker-compose" ∉ (install_action allOkEnv ["", ""]).assembled) :=
  ⟨rfl, rfl, rfl, install_idempotent allOkEnv ["", ""] rfl rfl rfl⟩

end Brewblox
